import Mathlib

/-!
Verification of the batch reassembler `ListenToLedgerUpdates` from
`pkg/nodebridge/ledger.go` (repository `inx-app`).

The Go function pulls records from a gRPC stream in a single loop:

  for {
    payload, err := stream.Recv()
    if errors.Is(err, io.EOF) || status.Code(err) == codes.Canceled { break }
    if ctx.Err() != nil { return nil }
    if err != nil { return err }
    switch op := payload.GetOp().(type) { ... }
  }
  return nil

We embed one `stream.Recv` outcome as `RecvResult` and pair each loop
iteration with the boolean value of `ctx.Err() != nil` observed at that
iteration's check, so a trace `List (RecvResult S O T × Bool)` captures every
interleaving of stream events with cooperative cancellation.  The switch body
becomes `step`; the loop becomes `run`, which additionally returns, in order,
the list of batches handed to the `consume` callback (the observation the
properties talk about).  Payload types of `inx.LedgerSpent` / `inx.LedgerOutput`
and the transport / callback error types are opaque type parameters
`S O T E`.  The `uint32(len(...))` casts of the Go code are modelled by
`uint32Cast` (reduction modulo 2^32).
-/

namespace NodeBridge

/-- Marker types of `inx.LedgerUpdate_Marker`; `OTHER` stands for any enum
value that is neither `BEGIN` nor `END` (e.g. `NONE`), which the switch in the
Go code silently ignores. -/
inductive MarkerType : Type
  | BEGIN
  | END
  | OTHER
deriving DecidableEq, Repr

/-- Embedding of `inx.LedgerUpdate_Marker`: milestone index, marker type and
the declared consumed/created counts (all `uint32` fields in Go, hence
naturals below `2^32` in any real message). -/
structure BatchMarker : Type where
  milestoneIndex : Nat
  markerType : MarkerType
  consumedCount : Nat
  createdCount : Nat
deriving Repr

/-- The `oneof op` payload of one `inx.LedgerUpdate` message: the three
variants handled by the type switch, plus `other` for any unhandled operation
kind (including a missing payload), which the switch silently skips. -/
inductive Op (S O : Type) : Type
  | batchMarker (m : BatchMarker)
  | consumed (s : S)
  | created (o : O)
  | other
deriving Repr

/-- Embedding of the Go struct `LedgerUpdate`: the batch accumulator and also
the completed value handed to the callback. -/
structure LedgerUpdate (S O : Type) : Type where
  milestoneIndex : Nat
  consumed : List S
  created : List O
deriving Repr

/-- One outcome of `stream.Recv()`: a payload, clean end of stream (`io.EOF`),
a status with code `codes.Canceled`, or any other non-nil transport error
carrying its verbatim value. -/
inductive RecvResult (S O T : Type) : Type
  | ok (p : Op S O)
  | eof
  | canceled
  | err (e : T)
deriving Repr

/-- The error values `ListenToLedgerUpdates` can return: the three protocol
violation sentinels declared at the top of `ledger.go`, a verbatim transport
error, or a verbatim callback error. -/
inductive ConsumeError (T E : Type) : Type
  | alreadyInProgress
  | invalidOperation
  | endedAbruptly
  | transport (e : T)
  | callback (e : E)
deriving Repr

/-- Status of the loop after consuming a (finite) trace: either the trace is
exhausted and the loop would keep waiting with accumulator `update`, or the
loop already terminated with the given result. -/
inductive LoopState (S O T E : Type) : Type
  | more (update : Option (LedgerUpdate S O))
  | done (r : Except (ConsumeError T E) Unit)
deriving Repr

/-- Go's `uint32(n)` cast applied to a list length. -/
def uint32Cast (n : Nat) : Nat := n % 4294967296

variable {S O T E : Type}

/-- The body of the type switch of `ListenToLedgerUpdates`, acting on the
current accumulator `u` (Go's local variable `update`, `none` when no batch is
open).  Returns the batches delivered to the callback during this step (empty
or a singleton) and either the next accumulator state or a terminating
result.  Mirrors `ledger.go` lines 53-101 case by case. -/
def step (onBatch : LedgerUpdate S O → Option E) (u : Option (LedgerUpdate S O)) :
    Op S O → List (LedgerUpdate S O) × LoopState S O T E
  | .batchMarker m =>
    match m.markerType with
    | .BEGIN =>
      match u with
      | some _ => ([], .done (.error .alreadyInProgress))
      | none => ([], .more (some ⟨m.milestoneIndex, [], []⟩))
    | .END =>
      match u with
      | none => ([], .done (.error .invalidOperation))
      | some upd =>
        if uint32Cast upd.consumed.length ≠ m.consumedCount
            ∨ uint32Cast upd.created.length ≠ m.createdCount
            ∨ upd.milestoneIndex ≠ m.milestoneIndex then
          ([], .done (.error .endedAbruptly))
        else
          match onBatch upd with
          | some e => ([upd], .done (.error (.callback e)))
          | none => ([upd], .more none)
    | .OTHER => ([], .more u)
  | .consumed s =>
    match u with
    | none => ([], .done (.error .invalidOperation))
    | some upd => ([], .more (some { upd with consumed := upd.consumed ++ [s] }))
  | .created o =>
    match u with
    | none => ([], .done (.error .invalidOperation))
    | some upd => ([], .more (some { upd with created := upd.created ++ [o] }))
  | .other => ([], .more u)

/-- The consume loop of `ListenToLedgerUpdates` over a finite trace of
iteration inputs, started with accumulator `u`.  Each element pairs the
`stream.Recv()` outcome with the value of `ctx.Err() != nil` at that
iteration's check.  As in the Go code, `io.EOF` and `codes.Canceled` break the
loop (success) before the context check, the context check returns `nil`
before the general error check, and only then is the payload processed.
Returns the ordered list of batches handed to the callback plus the loop
status. -/
def run (onBatch : LedgerUpdate S O → Option E) :
    List (RecvResult S O T × Bool) → Option (LedgerUpdate S O) →
    List (LedgerUpdate S O) × LoopState S O T E
  | [], u => ([], .more u)
  | (.eof, _) :: _, _ => ([], .done (.ok ()))
  | (.canceled, _) :: _, _ => ([], .done (.ok ()))
  | (.err _, true) :: _, _ => ([], .done (.ok ()))
  | (.err e, false) :: _, _ => ([], .done (.error (.transport e)))
  | (.ok _, true) :: _, _ => ([], .done (.ok ()))
  | (.ok p, false) :: rest, u =>
    match step onBatch u p with
    | (l, .more u') =>
      let r := run onBatch rest u'
      (l ++ r.1, r.2)
    | (l, .done res) => (l, .done res)

/-- `ListenToLedgerUpdates` after the stream has been opened: run the loop
from the initial `var update *LedgerUpdate = nil` state; an exhausted trace
means the loop is still idle waiting on the transport, which we observe as the
clean stop the surrounding code would eventually take. -/
def ListenToLedgerUpdates (onBatch : LedgerUpdate S O → Option E)
    (trace : List (RecvResult S O T × Bool)) :
    List (LedgerUpdate S O) × Except (ConsumeError T E) Unit :=
  match run onBatch trace none with
  | (l, .more _) => (l, .ok ())
  | (l, .done r) => (l, r)

/-- Modelled from the spec (claim C9's wording, not the code): the same loop
but with the cancellation check placed "between processing one record and
requesting the next", so a record that was successfully received is always
processed before cancellation can stop the loop. -/
def runLateCancel (onBatch : LedgerUpdate S O → Option E) :
    List (RecvResult S O T × Bool) → Option (LedgerUpdate S O) →
    List (LedgerUpdate S O) × LoopState S O T E
  | [], u => ([], .more u)
  | (.eof, _) :: _, _ => ([], .done (.ok ()))
  | (.canceled, _) :: _, _ => ([], .done (.ok ()))
  | (.err e, _) :: _, _ => ([], .done (.error (.transport e)))
  | (.ok p, c) :: rest, u =>
    match step onBatch u p with
    | (l, .more u') =>
      if c then (l, .done (.ok ()))
      else
        let r := runLateCancel onBatch rest u'
        (l ++ r.1, r.2)
    | (l, .done res) => (l, .done res)

/-- A record that is a data item (consumed or created), not a marker. -/
def Op.isData : Op S O → Bool
  | .consumed _ => true
  | .created _ => true
  | _ => false

/-- The consumed payloads of a record list, in arrival order. -/
def consumedOf (l : List (Op S O)) : List S :=
  l.filterMap fun p =>
    match p with
    | .consumed s => some s
    | _ => none

/-- The created payloads of a record list, in arrival order. -/
def createdOf (l : List (Op S O)) : List O :=
  l.filterMap fun p =>
    match p with
    | .created o => some o
    | _ => none

/-- A successfully received record with no concurrent cancellation. -/
def mkOk (p : Op S O) : RecvResult S O T × Bool := (.ok p, false)


/-- Composition of the loop over a split trace: if the first part leaves the
loop running, the second part continues from its accumulator and the delivery
logs concatenate; if the first part terminates, the rest is never read. -/
theorem run_append (onBatch : LedgerUpdate S O → Option E)
    (t1 t2 : List (RecvResult S O T × Bool)) (u : Option (LedgerUpdate S O)) :
    run onBatch (t1 ++ t2) u =
      match run onBatch t1 u with
      | (l1, .more u') => (l1 ++ (run onBatch t2 u').1, (run onBatch t2 u').2)
      | (l1, .done r) => (l1, .done r) := by
  induction t1 generalizing u with
  | nil => simp [run]
  | cons hd tl ih =>
    obtain ⟨r, c⟩ := hd
    cases r with
    | eof => simp [run]
    | canceled => simp [run]
    | err e => cases c <;> simp [run]
    | ok p =>
      cases c with
      | true => simp [run]
      | false =>
        rcases hs : step (T := T) onBatch u p with ⟨l, s⟩
        cases s with
        | more u' =>
          rcases h1 : run (T := T) onBatch tl u' with ⟨l1, s1⟩
          have ih' := ih u'
          rw [h1] at ih'
          cases s1 with
          | more u2 => simp [run, hs, h1, ih', List.append_assoc]
          | done r2 => simp [run, hs, h1, ih']
        | done res => simp [run, hs]

/-- Processing a run of data items while a batch is open appends their
payloads, in arrival order, to the open accumulator and delivers nothing. -/
theorem run_dataItems (onBatch : LedgerUpdate S O → Option E)
    (items : List (Op S O)) (hitems : ∀ p ∈ items, p.isData)
    (rest : List (RecvResult S O T × Bool)) (idx : Nat) (cs : List S) (ks : List O) :
    run onBatch (items.map mkOk ++ rest) (some ⟨idx, cs, ks⟩) =
      run onBatch rest (some ⟨idx, cs ++ consumedOf items, ks ++ createdOf items⟩) := by
  induction items generalizing cs ks with
  | nil => simp [consumedOf, createdOf]
  | cons hd tl ih =>
    have hhd : hd.isData := hitems hd (by simp)
    have htl : ∀ p ∈ tl, p.isData := fun p hp => hitems p (by simp [hp])
    cases hd with
    | consumed s =>
      rw [List.map_cons, List.cons_append]
      simp only [mkOk, run, step]
      rw [ih htl (cs ++ [s]) ks]
      simp [consumedOf, createdOf, List.filterMap_cons, List.append_assoc]
    | created o =>
      rw [List.map_cons, List.cons_append]
      simp only [mkOk, run, step]
      rw [ih htl cs (ks ++ [o])]
      simp [consumedOf, createdOf, List.filterMap_cons, List.append_assoc]
    | batchMarker m => simp [Op.isData] at hhd
    | other => simp [Op.isData] at hhd


/-- The consumed payloads of `n` copies of one consumed record. -/
theorem consumedOf_replicate (n : Nat) (s : S) :
    consumedOf (List.replicate n (Op.consumed (O := O) s)) = List.replicate n s := by
  induction n with
  | zero => simp [consumedOf]
  | succ m ih => simp [consumedOf, List.replicate_succ, List.filterMap_cons, ih]

/-- The created payloads of `n` copies of one consumed record. -/
theorem createdOf_replicate (n : Nat) (s : S) :
    createdOf (List.replicate n (Op.consumed (O := O) s)) = ([] : List O) := by
  induction n with
  | zero => simp [createdOf]
  | succ m ih => simp [createdOf, List.replicate_succ, List.filterMap_cons, ih]

/-- Running the loop over one well-formed batch (BEGIN, data items whose
counts match the declared ones, END) from the idle state delivers exactly the
accumulated batch and then either idles (callback succeeded) or stops with
the callback's error. -/
theorem run_wfBatch (onBatch : LedgerUpdate S O → Option E)
    (idx : Nat) (items : List (Op S O))
    (hitems : ∀ p ∈ items, p.isData)
    (hc : (consumedOf items).length < 4294967296)
    (hk : (createdOf items).length < 4294967296) :
    run (T := T) onBatch
        (mkOk (Op.batchMarker
            ⟨idx, .BEGIN, (consumedOf items).length, (createdOf items).length⟩)
          :: (items.map mkOk
            ++ [mkOk (Op.batchMarker
              ⟨idx, .END, (consumedOf items).length, (createdOf items).length⟩)])) none
      = ([⟨idx, consumedOf items, createdOf items⟩],
          match onBatch ⟨idx, consumedOf items, createdOf items⟩ with
          | some e => .done (.error (.callback e))
          | none => .more none) := by
  have hbegin :
      run (T := T) onBatch
          (mkOk (Op.batchMarker
              ⟨idx, .BEGIN, (consumedOf items).length, (createdOf items).length⟩)
            :: (items.map mkOk
              ++ [mkOk (Op.batchMarker
                ⟨idx, .END, (consumedOf items).length, (createdOf items).length⟩)])) none
        = run onBatch
            (items.map mkOk
              ++ [mkOk (Op.batchMarker
                ⟨idx, .END, (consumedOf items).length, (createdOf items).length⟩)])
            (some ⟨idx, [], []⟩) := by
    simp [mkOk, run, step]
  rw [hbegin, run_dataItems onBatch items hitems _ idx [] []]
  have hcnd : uint32Cast (consumedOf items).length = (consumedOf items).length :=
    Nat.mod_eq_of_lt hc
  have hknd : uint32Cast (createdOf items).length = (createdOf items).length :=
    Nat.mod_eq_of_lt hk
  cases honB : onBatch ⟨idx, consumedOf items, createdOf items⟩ with
  | none => simp [mkOk, run, step, hcnd, hknd, honB]
  | some e => simp [mkOk, run, step, hcnd, hknd, honB]

/-- C1: for an input stream that is exactly `BEGIN(idx, c, k)`, then `c`
consumed and `k` created items in any interleaving, then `END(idx, c, k)`,
`ListenToLedgerUpdates` hands the callback exactly one batch, whose milestone
index is `idx` and whose consumed and created sequences are the arriving
payloads in arrival order (counts `c`, `k` are `uint32` values, hence below
`2^32`). -/
theorem C1_wellformed_batch_delivery (onBatch : LedgerUpdate S O → Option E)
    (idx : Nat) (items : List (Op S O))
    (hitems : ∀ p ∈ items, p.isData)
    (hc : (consumedOf items).length < 4294967296)
    (hk : (createdOf items).length < 4294967296) :
    (ListenToLedgerUpdates (T := T) onBatch
        (mkOk (Op.batchMarker
            ⟨idx, .BEGIN, (consumedOf items).length, (createdOf items).length⟩)
          :: (items.map mkOk
            ++ [mkOk (Op.batchMarker
              ⟨idx, .END, (consumedOf items).length, (createdOf items).length⟩)]))).1
      = [⟨idx, consumedOf items, createdOf items⟩] := by
  rw [ListenToLedgerUpdates, run_wfBatch onBatch idx items hitems hc hk]
  cases honB : onBatch ⟨idx, consumedOf items, createdOf items⟩ <;> simp [honB]

/-- Witness for C1: a concrete stream with two consumed items and one
created item around milestone 7. -/
theorem C1_wellformed_batch_delivery_witness :
    (ListenToLedgerUpdates (S := Nat) (O := Nat) (T := Nat) (E := Nat)
        (fun _ => none)
        (mkOk (Op.batchMarker ⟨7, .BEGIN, 2, 1⟩)
          :: ([Op.consumed 10, Op.created 20, Op.consumed 30].map mkOk
            ++ [mkOk (Op.batchMarker ⟨7, .END, 2, 1⟩)]))).1
      = [⟨7, [10, 30], [20]⟩] := by
  have h := C1_wellformed_batch_delivery (S := Nat) (O := Nat) (T := Nat) (E := Nat)
    (fun _ => none) 7 [Op.consumed 10, Op.created 20, Op.consumed 30]
    (by decide) (by decide) (by decide)
  simpa [consumedOf, createdOf] using h

/-- C2: when a prefix of the stream has left a batch open with the loop still
running, a further BEGIN marker makes `ListenToLedgerUpdates` stop with the
AlreadyInProgress error, and the batches delivered are exactly those the
prefix had already delivered — in particular zero `onBatch` calls when no
batch completed in the prefix (`log1 = []`). -/
theorem C2_double_begin_rejected (onBatch : LedgerUpdate S O → Option E)
    (t1 rest : List (RecvResult S O T × Bool)) (log1 : List (LedgerUpdate S O))
    (upd : LedgerUpdate S O) (idx c k : Nat)
    (hpre : run onBatch t1 none = (log1, .more (some upd))) :
    ListenToLedgerUpdates onBatch
        (t1 ++ mkOk (Op.batchMarker ⟨idx, .BEGIN, c, k⟩) :: rest)
      = (log1, .error .alreadyInProgress) := by
  rw [ListenToLedgerUpdates, run_append, hpre]
  simp [mkOk, run, step]

/-- Witness for C2: `BEGIN(1,0,0), BEGIN(2,0,0)` yields AlreadyInProgress
with zero deliveries. -/
theorem C2_double_begin_rejected_witness :
    ListenToLedgerUpdates (S := Nat) (O := Nat) (T := Nat) (E := Nat)
        (fun _ => none)
        ([mkOk (Op.batchMarker ⟨1, .BEGIN, 0, 0⟩)]
          ++ mkOk (Op.batchMarker ⟨2, .BEGIN, 0, 0⟩) :: [])
      = ([], .error .alreadyInProgress) :=
  C2_double_begin_rejected (fun _ => none) _ _ [] ⟨1, [], []⟩ 2 0 0 rfl

/-- C3: when a prefix of the stream has left the loop running with no batch
open, a consumed item, a created item, or an END marker makes
`ListenToLedgerUpdates` stop with the InvalidOperation error. -/
theorem C3_orphan_rejected (onBatch : LedgerUpdate S O → Option E)
    (t1 rest : List (RecvResult S O T × Bool)) (log1 : List (LedgerUpdate S O))
    (p : Op S O)
    (hp : (∃ s, p = Op.consumed s) ∨ (∃ o, p = Op.created o)
        ∨ (∃ m : BatchMarker, m.markerType = .END ∧ p = .batchMarker m))
    (hpre : run onBatch t1 none = (log1, .more none)) :
    ListenToLedgerUpdates onBatch (t1 ++ mkOk p :: rest)
      = (log1, .error .invalidOperation) := by
  rw [ListenToLedgerUpdates, run_append, hpre]
  rcases hp with ⟨s, rfl⟩ | ⟨o, rfl⟩ | ⟨m, hm, rfl⟩
  · simp [mkOk, run, step]
  · simp [mkOk, run, step]
  · simp [mkOk, run, step, hm]

/-- Witness for C3: a lone consumed item with no preceding BEGIN yields
InvalidOperation. -/
theorem C3_orphan_rejected_witness :
    ListenToLedgerUpdates (S := Nat) (O := Nat) (T := Nat) (E := Nat)
        (fun _ => none) ([] ++ mkOk (Op.consumed 5) :: [])
      = ([], .error .invalidOperation) :=
  C3_orphan_rejected (fun _ => none) [] [] [] (Op.consumed 5)
    (Or.inl ⟨5, rfl⟩) rfl

/-- C4 (amended): when a prefix of the stream has left a batch open, an END
marker whose declared consumed count differs from the accumulated consumed
length truncated to `uint32`, or whose declared created count differs from the
accumulated created length truncated to `uint32`, or whose milestone index
differs from the accumulator's, makes `ListenToLedgerUpdates` stop with the
EndedAbruptly error, without delivering that batch. -/
theorem C4_count_mismatch_rejected (onBatch : LedgerUpdate S O → Option E)
    (t1 rest : List (RecvResult S O T × Bool)) (log1 : List (LedgerUpdate S O))
    (upd : LedgerUpdate S O) (m : BatchMarker)
    (hend : m.markerType = .END)
    (hmis : uint32Cast upd.consumed.length ≠ m.consumedCount
        ∨ uint32Cast upd.created.length ≠ m.createdCount
        ∨ upd.milestoneIndex ≠ m.milestoneIndex)
    (hpre : run onBatch t1 none = (log1, .more (some upd))) :
    ListenToLedgerUpdates onBatch (t1 ++ mkOk (.batchMarker m) :: rest)
      = (log1, .error .endedAbruptly) := by
  rw [ListenToLedgerUpdates, run_append, hpre]
  simp only [mkOk, run, step, hend]
  rw [if_pos hmis]
  simp

/-- Witness for C4 (amended): `BEGIN(1,2,0), Consumed, END(1,2,0)` — one
consumed item accumulated, two declared — yields EndedAbruptly with zero
deliveries. -/
theorem C4_count_mismatch_rejected_witness :
    ListenToLedgerUpdates (S := Nat) (O := Nat) (T := Nat) (E := Nat)
        (fun _ => none)
        ([mkOk (Op.batchMarker ⟨1, .BEGIN, 2, 0⟩), mkOk (Op.consumed 5)]
          ++ mkOk (Op.batchMarker ⟨1, .END, 2, 0⟩) :: [])
      = ([], .error .endedAbruptly) :=
  C4_count_mismatch_rejected (fun _ => none) _ _ [] ⟨1, [5], []⟩
    ⟨1, .END, 2, 0⟩ rfl (Or.inl (by decide)) rfl

/-- With an open batch holding `n` consumed items where `2^32` divides `n`,
an END marker declaring zero consumed and zero created items passes the
code's truncated count check: the batch is delivered and the call succeeds. -/
theorem run_uint32_wraparound (n : Nat) (hn : n % 4294967296 = 0) :
    ListenToLedgerUpdates (S := Unit) (O := Unit) (T := Unit) (E := Unit)
        (fun _ => none)
        (mkOk (Op.batchMarker ⟨1, .BEGIN, 0, 0⟩)
          :: ((List.replicate n (Op.consumed ())).map mkOk
            ++ [mkOk (Op.batchMarker ⟨1, .END, 0, 0⟩)]))
      = ([⟨1, List.replicate n (), []⟩], .ok ()) := by
  have hitems : ∀ p ∈ List.replicate n
      (Op.consumed (S := Unit) (O := Unit) ()), p.isData := by
    intro p hp
    rw [List.eq_of_mem_replicate hp]
    rfl
  have hbegin :
      run (T := Unit) (E := Unit) (fun _ => none)
          (mkOk (Op.batchMarker ⟨1, .BEGIN, 0, 0⟩)
            :: ((List.replicate n
                  (Op.consumed (S := Unit) (O := Unit) ())).map mkOk
              ++ [mkOk (Op.batchMarker ⟨1, .END, 0, 0⟩)])) none
        = run (fun _ => none)
            ((List.replicate n
                (Op.consumed (S := Unit) (O := Unit) ())).map mkOk
              ++ [mkOk (Op.batchMarker ⟨1, .END, 0, 0⟩)])
            (some ⟨1, [], []⟩) := by
    simp [mkOk, run, step]
  rw [ListenToLedgerUpdates, hbegin,
    run_dataItems _ _ hitems _ 1 [] [], consumedOf_replicate, createdOf_replicate]
  simp [mkOk, run, step, uint32Cast, hn]

/-- Counterexample to C4 as stated: after `BEGIN(1,0,0)` and `2^32` consumed
items, the END marker declares a consumed count (0) that differs from the
number of accumulated consumed payloads (`2^32`), yet the Go code's
`uint32(len(...))` cast wraps the length to 0, so the check passes: the batch
is delivered to the callback and the call succeeds instead of returning
EndedAbruptly. -/
theorem C4_counterexample :
    ListenToLedgerUpdates (S := Unit) (O := Unit) (T := Unit) (E := Unit)
        (fun _ => none)
        (mkOk (Op.batchMarker ⟨1, .BEGIN, 0, 0⟩)
          :: ((List.replicate 4294967296 (Op.consumed ())).map mkOk
            ++ [mkOk (Op.batchMarker ⟨1, .END, 0, 0⟩)]))
      = ([⟨1, List.replicate 4294967296 (), []⟩], .ok ())
    ∧ (List.replicate 4294967296 (() : Unit)).length ≠ 0 :=
  ⟨run_uint32_wraparound 4294967296 (Nat.mod_self 4294967296), by
    rw [List.length_replicate]
    decide⟩

/-- C5: when a prefix of the stream has left a batch open with the loop still
running, a clean end-of-stream (io.EOF) or a Cancelled stream signal makes
`ListenToLedgerUpdates` return success without delivering the half-received
batch: the deliveries are exactly those of the prefix. -/
theorem C5_clean_end_midbatch_success (onBatch : LedgerUpdate S O → Option E)
    (t1 rest : List (RecvResult S O T × Bool)) (log1 : List (LedgerUpdate S O))
    (upd : LedgerUpdate S O) (b : Bool)
    (hpre : run onBatch t1 none = (log1, .more (some upd))) :
    ListenToLedgerUpdates onBatch (t1 ++ (.eof, b) :: rest) = (log1, .ok ())
    ∧ ListenToLedgerUpdates onBatch (t1 ++ (.canceled, b) :: rest)
        = (log1, .ok ()) := by
  constructor <;> · rw [ListenToLedgerUpdates, run_append, hpre]; simp [run]

/-- Witness for C5: `BEGIN(1,1,0)` followed by end-of-stream (or the
Cancelled signal) yields success with zero deliveries. -/
theorem C5_clean_end_midbatch_success_witness :
    ListenToLedgerUpdates (S := Nat) (O := Nat) (T := Nat) (E := Nat)
        (fun _ => none)
        ([mkOk (Op.batchMarker ⟨1, .BEGIN, 1, 0⟩)] ++ (.eof, false) :: [])
      = ([], .ok ())
    ∧ ListenToLedgerUpdates (S := Nat) (O := Nat) (T := Nat) (E := Nat)
        (fun _ => none)
        ([mkOk (Op.batchMarker ⟨1, .BEGIN, 1, 0⟩)] ++ (.canceled, false) :: [])
      = ([], .ok ()) :=
  C5_clean_end_midbatch_success (fun _ => none) _ _ [] ⟨1, [], []⟩ false rfl

/-- C6: an input stream made of two consecutive well-formed batches, on which
the callback accepts the first batch, produces exactly two deliveries, in the
order the END markers arrive, each carrying exactly its own batch's payloads
in arrival order and nothing of the other batch. -/
theorem C6_multibatch_ordering (onBatch : LedgerUpdate S O → Option E)
    (idx1 idx2 : Nat) (items1 items2 : List (Op S O))
    (hitems1 : ∀ p ∈ items1, p.isData) (hitems2 : ∀ p ∈ items2, p.isData)
    (hc1 : (consumedOf items1).length < 4294967296)
    (hk1 : (createdOf items1).length < 4294967296)
    (hc2 : (consumedOf items2).length < 4294967296)
    (hk2 : (createdOf items2).length < 4294967296)
    (hok : onBatch ⟨idx1, consumedOf items1, createdOf items1⟩ = none) :
    (ListenToLedgerUpdates (T := T) onBatch
        ((mkOk (Op.batchMarker
            ⟨idx1, .BEGIN, (consumedOf items1).length, (createdOf items1).length⟩)
          :: (items1.map mkOk
            ++ [mkOk (Op.batchMarker
              ⟨idx1, .END, (consumedOf items1).length, (createdOf items1).length⟩)]))
        ++ (mkOk (Op.batchMarker
            ⟨idx2, .BEGIN, (consumedOf items2).length, (createdOf items2).length⟩)
          :: (items2.map mkOk
            ++ [mkOk (Op.batchMarker
              ⟨idx2, .END, (consumedOf items2).length,
                (createdOf items2).length⟩)])))).1
      = [⟨idx1, consumedOf items1, createdOf items1⟩,
         ⟨idx2, consumedOf items2, createdOf items2⟩] := by
  have h1 := run_wfBatch (T := T) onBatch idx1 items1 hitems1 hc1 hk1
  rw [hok] at h1
  have h2 := run_wfBatch (T := T) onBatch idx2 items2 hitems2 hc2 hk2
  rw [ListenToLedgerUpdates, run_append, h1]
  cases honB : onBatch ⟨idx2, consumedOf items2, createdOf items2⟩ <;> simp [h2, honB]

/-- Witness for C6: batch 5 with one consumed item, then batch 6 with one
created item, delivered as two batches in order. -/
theorem C6_multibatch_ordering_witness :
    (ListenToLedgerUpdates (S := Nat) (O := Nat) (T := Nat) (E := Nat)
        (fun _ => none)
        ((mkOk (Op.batchMarker ⟨5, .BEGIN, 1, 0⟩)
          :: ([Op.consumed 11].map mkOk
            ++ [mkOk (Op.batchMarker ⟨5, .END, 1, 0⟩)]))
        ++ (mkOk (Op.batchMarker ⟨6, .BEGIN, 0, 1⟩)
          :: ([Op.created 22].map mkOk
            ++ [mkOk (Op.batchMarker ⟨6, .END, 0, 1⟩)])))).1
      = [⟨5, [11], []⟩, ⟨6, [], [22]⟩] := by
  have h := C6_multibatch_ordering (S := Nat) (O := Nat) (T := Nat) (E := Nat)
    (fun _ => none) 5 6 [Op.consumed 11] [Op.created 22]
    (by decide) (by decide) (by decide) (by decide) (by decide) (by decide) rfl
  simpa [consumedOf, createdOf] using h

/-- C7: when a prefix of the stream has left a batch open, a matching END
marker whose delivery is rejected by the callback makes
`ListenToLedgerUpdates` return the callback's exact error value, after
delivering that batch, and without reading any of the remaining records —
the result does not depend on `rest`, so a later batch is never delivered. -/
theorem C7_callback_error_halts (onBatch : LedgerUpdate S O → Option E)
    (t1 rest : List (RecvResult S O T × Bool)) (log1 : List (LedgerUpdate S O))
    (upd : LedgerUpdate S O) (m : BatchMarker) (e : E)
    (hend : m.markerType = .END)
    (hc : uint32Cast upd.consumed.length = m.consumedCount)
    (hk : uint32Cast upd.created.length = m.createdCount)
    (hi : upd.milestoneIndex = m.milestoneIndex)
    (herr : onBatch upd = some e)
    (hpre : run onBatch t1 none = (log1, .more (some upd))) :
    ListenToLedgerUpdates onBatch (t1 ++ mkOk (.batchMarker m) :: rest)
      = (log1 ++ [upd], .error (.callback e)) := by
  rw [ListenToLedgerUpdates, run_append, hpre]
  simp [mkOk, run, step, hend, ← hc, ← hk, hi, herr]

/-- Witness for C7: the callback rejects the first batch with error 42; a
second well-formed batch follows in the stream but is never delivered. -/
theorem C7_callback_error_halts_witness :
    ListenToLedgerUpdates (S := Nat) (O := Nat) (T := Nat) (E := Nat)
        (fun _ => some 42)
        ([mkOk (Op.batchMarker ⟨3, .BEGIN, 0, 0⟩)]
          ++ mkOk (.batchMarker ⟨3, .END, 0, 0⟩)
            :: [mkOk (Op.batchMarker ⟨4, .BEGIN, 0, 0⟩),
                mkOk (Op.batchMarker ⟨4, .END, 0, 0⟩)])
      = ([] ++ [⟨3, [], []⟩], .error (.callback 42)) :=
  C7_callback_error_halts (fun _ => some 42) _ _ [] ⟨3, [], []⟩
    ⟨3, .END, 0, 0⟩ 42 rfl rfl rfl rfl rfl rfl

/-- C8: when a prefix of the stream leaves the loop running, a transport
error that is neither io.EOF nor the Cancelled signal (and no concurrent
context cancellation) makes `ListenToLedgerUpdates` return that exact error
value, with only the prefix's deliveries and independently of any later
records. -/
theorem C8_transport_error_propagated (onBatch : LedgerUpdate S O → Option E)
    (t1 rest : List (RecvResult S O T × Bool)) (log1 : List (LedgerUpdate S O))
    (u : Option (LedgerUpdate S O)) (e : T)
    (hpre : run onBatch t1 none = (log1, .more u)) :
    ListenToLedgerUpdates onBatch (t1 ++ (.err e, false) :: rest)
      = (log1, .error (.transport e)) := by
  rw [ListenToLedgerUpdates, run_append, hpre]
  simp [run]

/-- Witness for C8: a transport error with value 9 on the first read is
returned verbatim. -/
theorem C8_transport_error_propagated_witness :
    ListenToLedgerUpdates (S := Nat) (O := Nat) (T := Nat) (E := Nat)
        (fun _ => none) ([] ++ (.err 9, false) :: [])
      = ([], .error (.transport 9)) :=
  C8_transport_error_propagated (fun _ => none) [] [] [] none 9 rfl

/-- C9 (amended): the cancellation check happens once per iteration, after
`stream.Recv()` and before the record is processed; consequently the record
received in the very iteration in which cancellation is observed is discarded
unprocessed (the loop returns success with only the prefix's deliveries,
regardless of that record and of anything after it), while all records of the
prefix were fully processed. -/
theorem C9_cancellation_discards_received_record
    (onBatch : LedgerUpdate S O → Option E)
    (t1 rest : List (RecvResult S O T × Bool)) (log1 : List (LedgerUpdate S O))
    (u : Option (LedgerUpdate S O)) (p : Op S O)
    (hpre : run onBatch t1 none = (log1, .more u)) :
    ListenToLedgerUpdates onBatch (t1 ++ (.ok p, true) :: rest)
      = (log1, .ok ()) := by
  rw [ListenToLedgerUpdates, run_append, hpre]
  simp [run]

/-- Witness for C9 (amended): cancellation observed while receiving the END
marker of an open batch makes the call return success with no delivery. -/
theorem C9_cancellation_discards_received_record_witness :
    ListenToLedgerUpdates (S := Nat) (O := Nat) (T := Nat) (E := Nat)
        (fun _ => none)
        ([mkOk (Op.batchMarker ⟨1, .BEGIN, 0, 0⟩)]
          ++ (.ok (Op.batchMarker ⟨1, .END, 0, 0⟩), true) :: [])
      = ([], .ok ()) :=
  C9_cancellation_discards_received_record (fun _ => none) _ _ []
    (some ⟨1, [], []⟩) (Op.batchMarker ⟨1, .END, 0, 0⟩) rfl

/-- Counterexample to C9 as stated: on the stream `BEGIN(1,0,0)` then
`END(1,0,0)`, with cancellation becoming observable at the second iteration's
check, the code delivers nothing — the successfully received END record is
discarded unprocessed — whereas a loop whose cancellation check sits between
processing one record and requesting the next (the claim's wording, embodied
by `runLateCancel`) would process it and deliver the batch. -/
theorem C9_counterexample :
    (run (S := Unit) (O := Unit) (T := Unit) (E := Unit) (fun _ => none)
        [(.ok (Op.batchMarker ⟨1, .BEGIN, 0, 0⟩), false),
         (.ok (Op.batchMarker ⟨1, .END, 0, 0⟩), true)] none).1 = []
    ∧ (runLateCancel (S := Unit) (O := Unit) (T := Unit) (E := Unit)
        (fun _ => none)
        [(.ok (Op.batchMarker ⟨1, .BEGIN, 0, 0⟩), false),
         (.ok (Op.batchMarker ⟨1, .END, 0, 0⟩), true)] none).1
      = [⟨1, [], []⟩] :=
  ⟨rfl, rfl⟩

/-- C10: a record whose operation kind is none of the three handled variants,
and a batch marker whose type is neither BEGIN nor END, are silently skipped:
the loop continues on the rest of the stream with the accumulator, the
deliveries and the eventual result unchanged. -/
theorem C10_unhandled_record_skipped (onBatch : LedgerUpdate S O → Option E)
    (u : Option (LedgerUpdate S O)) (rest : List (RecvResult S O T × Bool))
    (idx c k : Nat) :
    run onBatch ((.ok .other, false) :: rest) u = run onBatch rest u
    ∧ run onBatch ((.ok (.batchMarker ⟨idx, .OTHER, c, k⟩), false) :: rest) u
        = run onBatch rest u := by
  constructor <;> simp [run, step]

end NodeBridge
